import Mathlib

/-!
Shallow embedding of `subsys/net/l2/ethernet/dsa/dsa.c` (DSA switch core):
ingress redirection (`dsa_net_recv`), egress tagging (`dsa_tx`), port
registry (`dsa_get_slave_port`), callback registration, and the LAG
membership table (`dsa_switch_lag_join` / `lag_leave` / `lag_change`).

Interfaces, packets, devices and C function pointers are modelled as
abstract `Nat` handles; the environment `Env` interprets the handles
(l2 type, hardware capabilities, per-interface ethernet context, driver
operations).  Machine integers stay well inside 32 bits everywhere the
claims evaluate them, so `Nat`/`Int` are used directly.
-/

namespace DSA

/-- errno value `ENOENT` (Zephyr minimal libc). -/
def ENOENT : Int := 2

/-- errno value `ESRCH`. -/
def ESRCH : Int := 3

/-- errno value `ENODEV`. -/
def ENODEV : Int := 19

/-- errno value `ENOMEM`. -/
def ENOMEM : Int := 12

/-- errno value `ENOTSUP`. -/
def ENOTSUP : Int := 134

/-- `struct dsa_lag` from `include/zephyr/net/dsa.h`: a per-port LAG
descriptor `{id, is_valid}`. -/
structure dsa_lag where
  id : Nat
  is_valid : Bool
deriving DecidableEq, Repr, Inhabited

/-- The part of `struct dsa_api` the embedded functions consult directly:
`dsa_get_iface` (nullable function pointer, modelled as an optional
handle) and `dsa_xmit_pkt` (handle).  The LAG driver primitives are kept
separately in `DriverEnv` because the C code dereferences
`context->dapi` unconditionally in the LAG functions. -/
structure dsa_api where
  dsa_get_iface : Option Nat
  dsa_xmit_pkt : Nat
deriving DecidableEq, Repr, Inhabited

/-- `struct dsa_context`: master/slave interface registry plus the LAG
membership table (`lag_ids` pool and per-port `lags` array). -/
structure dsa_context where
  dapi : Option dsa_api
  iface_master : Option Nat
  iface_slave : List Nat
  num_slave_ports : Int
  lag_ids : List Nat
  lags : List dsa_lag
deriving DecidableEq, Repr, Inhabited

/-- The DSA-relevant part of `struct ethernet_context`: the receive
filter callback `dsa_recv_cb` (nullable, handle), the saved original
transmit function `dsa_send` (nullable, handle), and the back reference
`dsa_ctx`. -/
structure ethernet_context where
  dsa_recv_cb : Option Nat
  dsa_send : Option Nat
  dsa_ctx : Option dsa_context
deriving DecidableEq, Repr, Inhabited

/-- The three LAG driver primitives (`api->port_lag_join` etc.), i.e.
`context->dapi` as dereferenced by the LAG functions (the C code never
checks it for NULL there, so it is passed as a plain value). -/
structure DriverEnv where
  port_lag_join : Nat → dsa_lag → Int
  port_lag_leave : Nat → dsa_lag → Int
  port_lag_change : Nat → Int

/-- Environment interpreting interface/device/function handles:
`net_if_l2` (is the interface Ethernet), `net_eth_get_hw_capabilities`
(DSA master/slave capability bits), `net_if_l2_data`, the callback and
function-pointer interpretations, `net_if_lookup_by_dev`,
`net_if_get_device` and the per-device `dev->data` DSA context. -/
structure Env where
  is_eth : Nat → Bool
  cap_master : Nat → Bool
  cap_slave : Nat → Bool
  l2data : Nat → ethernet_context
  get_iface_impl : Nat → Nat → Nat → Nat
  recv_cb_impl : Nat → Nat → Nat → Bool
  xmit_impl : Nat → Nat → Nat → Nat
  send_impl : Nat → Nat → Nat → Int
  lookup_by_dev : Nat → Nat
  get_device : Nat → Nat
  dev_data : Nat → dsa_context

/-- `dsa_register_master_tx`: stores `fn` into `ctx->dsa_send`
unconditionally and returns 0. -/
def dsa_register_master_tx (ctx : ethernet_context) (fn : Nat) :
    ethernet_context × Int :=
  ({ ctx with dsa_send := some fn }, 0)

/-- `dsa_is_port_master`: Ethernet interface advertising
`ETHERNET_DSA_MASTER_PORT`. -/
def dsa_is_port_master (env : Env) (iface : Nat) : Bool :=
  env.is_eth iface && env.cap_master iface

/-- `dsa_check_iface`: `-ENOENT` for a non-Ethernet interface, `-ESRCH`
for an Ethernet interface with neither the DSA master nor the DSA slave
capability, 0 otherwise. -/
def dsa_check_iface (env : Env) (iface : Nat) : Int :=
  if ¬ env.is_eth iface then -ENOENT
  else if ¬ (env.cap_master iface || env.cap_slave iface) then -ESRCH
  else 0

/-- `dsa_register_recv_callback`: rejects invalid interfaces via
`dsa_check_iface` (no state change), stores a non-NULL callback, and is
a no-op returning 0 for a NULL callback.  Returns the (possibly updated)
ethernet context of `iface` together with the status. -/
def dsa_register_recv_callback (env : Env) (iface : Nat) (cb : Option Nat) :
    ethernet_context × Int :=
  let ret := dsa_check_iface env iface
  if ret < 0 then (env.l2data iface, ret)
  else
    match cb with
    | some c => ({ env.l2data iface with dsa_recv_cb := some c }, 0)
    | none => (env.l2data iface, 0)

/-- `dsa_net_recv`: ingress redirection.  `iface` is the master the
frame arrived on, `pkt` the packet (`none` models a NULL `*pkt`);
returns the interface the frame is delivered to (`none` models a NULL
return). -/
def dsa_net_recv (env : Env) (iface : Option Nat) (pkt : Option Nat) :
    Option Nat :=
  match pkt, iface with
  | none, _ => none
  | some _, none => none
  | some p, some i =>
    let c := env.l2data i
    match c.dsa_ctx with
    | none => some i
    | some dctx =>
      match dctx.dapi with
      | none => some i
      | some dapi =>
        match dapi.dsa_get_iface with
        | none => some i
        | some gh =>
          let iface_sw := env.get_iface_impl gh i p
          if dsa_check_iface env iface_sw < 0 then some iface_sw
          else
            match (env.l2data iface_sw).dsa_recv_cb with
            | some cbh =>
              if env.recv_cb_impl cbh iface_sw p then some iface_sw
              else some i
            | none => some i

/-- Driver / transmit calls made by `dsa_tx`, in order: `xmit` is a
`dapi->dsa_xmit_pkt` invocation, `send` an invocation of the saved
`dsa_send` function (by handle) on a device and packet. -/
inductive TxEvent where
  | xmit (iface pkt : Nat)
  | send (handle dev pkt : Nat)
deriving DecidableEq, Repr

/-- `dsa_tx`: egress path.  Returns the status and the list of driver /
transmit invocations it performed.  On the master path and on the slave
path the C code dereferences `ctx->dsa_ctx`, `context->dapi` and
`ctx->dsa_send` unconditionally; a NULL there is undefined behaviour in
C, modelled by an (unused by any theorem) `default` / `getD 0`. -/
def dsa_tx (env : Env) (dev : Nat) (pkt : Nat) : Int × List TxEvent :=
  let iface := env.lookup_by_dev dev
  if dsa_is_port_master env iface then
    let ctx := env.l2data iface
    let context := ctx.dsa_ctx.getD default
    let api := context.dapi.getD default
    let tagged := env.xmit_impl api.dsa_xmit_pkt iface pkt
    let h := ctx.dsa_send.getD 0
    (env.send_impl h dev tagged,
     [TxEvent.xmit iface pkt, TxEvent.send h dev tagged])
  else
    let context := env.dev_data dev
    match context.iface_master with
    | none => (-ENODEV, [])
    | some im =>
      let mctx := env.l2data im
      let api := context.dapi.getD default
      let tagged := env.xmit_impl api.dsa_xmit_pkt iface pkt
      let d := env.get_device im
      let h := mctx.dsa_send.getD 0
      (env.send_impl h d tagged,
       [TxEvent.xmit iface pkt, TxEvent.send h d tagged])

/-- `dsa_get_slave_port`: `eth_ctx` is `net_if_l2_data(iface)` (checked
for NULL by the C code).  The C code then dereferences
`eth_ctx->dsa_ctx` without a check; a NULL there is undefined behaviour,
modelled by a `default` that no theorem relies on.  Bounds-checks
`slave_num` against `num_slave_ports` and returns the slave interface. -/
def dsa_get_slave_port (eth_ctx : Option ethernet_context) (slave_num : Int) :
    Option Nat :=
  match eth_ctx with
  | none => none
  | some c =>
    let dctx := c.dsa_ctx.getD default
    if slave_num < 0 ∨ dctx.num_slave_ports ≤ slave_num then none
    else dctx.iface_slave.get? slave_num.toNat

/-- The `for` loop of `dsa_switch_lag_join`: scan `lag_ids` left to
right; on a slot equal to `lag_id` and positive, reuse it (break); on a
free (0) slot, store `lag_id` there (break).  Returns the updated
`lag_ids` and the `new_lag` descriptor (initially `{0, false}`). -/
def joinScan : List Nat → Nat → List Nat × dsa_lag
  | [], _ => ([], ⟨0, false⟩)
  | x :: rest, lag_id =>
    if x = lag_id ∧ 0 < x then (x :: rest, ⟨lag_id, true⟩)
    else if x = 0 then (lag_id :: rest, ⟨lag_id, true⟩)
    else
      let r := joinScan rest lag_id
      (x :: r.1, r.2)

/-- `dsa_switch_lag_join`: run the scan; if no slot was found or
claimed, fail with `-ENOMEM`; otherwise record
`context->lags[port] = new_lag` and call the driver primitive. -/
def dsa_switch_lag_join (drv : DriverEnv) (ctx : dsa_context)
    (port lag_id : Nat) : dsa_context × Int :=
  let s := joinScan ctx.lag_ids lag_id
  let new_lag := s.2
  if new_lag.is_valid = false then
    ({ ctx with lag_ids := s.1 }, -ENOMEM)
  else
    ({ ctx with lag_ids := s.1, lags := ctx.lags.set port new_lag },
     drv.port_lag_join port new_lag)

/-- The reclaim loop of `dsa_switch_lag_leave` / `lag_change`: zero the
first slot of `lag_ids` equal to `v` (break after the first hit). -/
def clearFirst : List Nat → Nat → List Nat
  | [], _ => []
  | x :: rest, v => if x = v then 0 :: rest else x :: clearFirst rest v

/-- `dsa_switch_lag_leave`: guard
`!(port_lag->is_valid || port_lag->id == 0)` then
`port_lag->id != old_lag.id`, both failing with `-ENOTSUP`; clear
`lags[port]`; if no port still references `lag_id`, zero its `lag_ids`
slot; call the driver primitive. -/
def dsa_switch_lag_leave (drv : DriverEnv) (ctx : dsa_context)
    (port lag_id : Nat) : dsa_context × Int :=
  let old_lag : dsa_lag := ⟨lag_id, false⟩
  let port_lag := ctx.lags.getD port default
  if ¬ (port_lag.is_valid = true ∨ port_lag.id = 0) then (ctx, -ENOTSUP)
  else if port_lag.id ≠ old_lag.id then (ctx, -ENOTSUP)
  else
    let lags1 := ctx.lags.set port ⟨0, false⟩
    let is_unused := lags1.all fun l => ! (l.is_valid && l.id == old_lag.id)
    let ids1 := if is_unused then clearFirst ctx.lag_ids old_lag.id
                else ctx.lag_ids
    ({ ctx with lags := lags1, lag_ids := ids1 },
     drv.port_lag_leave port old_lag)

/-- `dsa_switch_lag_change`: same two `-ENOTSUP` guards as leave (the
guards compare against the argument `lag_id`); then
`old_lag_id = port_lag->id; port_lag->id = lag_id;`, reclaim scan
against `old_lag_id`, and the device-level driver notification. -/
def dsa_switch_lag_change (drv : DriverEnv) (ctx : dsa_context)
    (port lag_id : Nat) : dsa_context × Int :=
  let old_lag : dsa_lag := ⟨lag_id, true⟩
  let port_lag := ctx.lags.getD port default
  if ¬ (port_lag.is_valid = true ∨ port_lag.id = 0) then (ctx, -ENOTSUP)
  else if port_lag.id ≠ old_lag.id then (ctx, -ENOTSUP)
  else
    let old_lag_id := port_lag.id
    let lags1 := ctx.lags.set port ⟨lag_id, port_lag.is_valid⟩
    let is_unused := lags1.all fun l => ! (l.is_valid && l.id == old_lag_id)
    let ids1 := if is_unused then clearFirst ctx.lag_ids old_lag_id
                else ctx.lag_ids
    ({ ctx with lags := lags1, lag_ids := ids1 },
     drv.port_lag_change port)

/-- One LAG table operation (the public entry points). -/
inductive LagOp where
  | join (port lag_id : Nat)
  | leave (port lag_id : Nat)
  | change (port lag_id : Nat)
deriving DecidableEq, Repr

/-- State effect of one LAG call (the state updates in the C code happen
before, and independently of, the driver call result). -/
def applyOp (drv : DriverEnv) (ctx : dsa_context) : LagOp → dsa_context
  | LagOp.join p l => (dsa_switch_lag_join drv ctx p l).1
  | LagOp.leave p l => (dsa_switch_lag_leave drv ctx p l).1
  | LagOp.change p l => (dsa_switch_lag_change drv ctx p l).1

/-- Run a sequence of LAG calls from a starting context. -/
def runOps (drv : DriverEnv) (ctx : dsa_context) (ops : List LagOp) :
    dsa_context :=
  ops.foldl (applyOp drv) ctx

/-- Initial (all-free) LAG state: `numPorts` ports, `numSlots` id slots,
every `lag_ids` slot 0 and every `lags` entry `{0, false}`. -/
def initCtx (numPorts numSlots : Nat) : dsa_context :=
  { dapi := none, iface_master := none, iface_slave := [],
    num_slave_ports := 0,
    lag_ids := List.replicate numSlots 0,
    lags := List.replicate numPorts ⟨0, false⟩ }

/-- A driver whose LAG primitives all succeed (return 0). -/
def drv0 : DriverEnv :=
  { port_lag_join := fun _ _ => 0,
    port_lag_leave := fun _ _ => 0,
    port_lag_change := fun _ => 0 }

/-- Boolean check that a list holds no duplicate non-zero values. -/
def noDupNonzeroB : List Nat → Bool
  | [] => true
  | x :: rest => (x == 0 || ! rest.contains x) && noDupNonzeroB rest

/-- An ethernet context with every field NULL. -/
def defaultEthCtx : ethernet_context :=
  { dsa_recv_cb := none, dsa_send := none, dsa_ctx := none }

/-- A base environment: no Ethernet interfaces, empty contexts, trivial
handle interpretations. -/
def baseEnv : Env :=
  { is_eth := fun _ => false, cap_master := fun _ => false,
    cap_slave := fun _ => false,
    l2data := fun _ => defaultEthCtx,
    get_iface_impl := fun _ _ _ => 0,
    recv_cb_impl := fun _ _ _ => false,
    xmit_impl := fun _ _ p => p,
    send_impl := fun _ _ _ => 0,
    lookup_by_dev := fun _ => 0,
    get_device := fun _ => 0,
    dev_data := fun _ => initCtx 0 0 }

/-- An environment where every interface is Ethernet but carries neither
DSA capability. -/
def envS : Env :=
  { baseEnv with is_eth := fun _ => true }

/-- An environment where every interface is an Ethernet DSA slave. -/
def envV : Env :=
  { baseEnv with is_eth := fun _ => true, cap_slave := fun _ => true }

/-- Driver operation table resolving every packet to interface 1. -/
def api5 : dsa_api := { dsa_get_iface := some 0, dsa_xmit_pkt := 0 }

/-- Switch context of the concrete ingress environment. -/
def dctx5 : dsa_context :=
  { dapi := some api5, iface_master := some 0, iface_slave := [1],
    num_slave_ports := 1, lag_ids := [], lags := [] }

/-- Concrete ingress environment: interface 0 is the DSA master
(Ethernet, master capability) whose driver resolves every packet to
interface 1; interface 1 is an Ethernet DSA slave with no receive
filter registered. -/
def env5 : Env :=
  { baseEnv with
    is_eth := fun i => i == 0 || i == 1,
    cap_master := fun i => i == 0,
    cap_slave := fun i => i == 1,
    l2data := fun i =>
      if i == 0 then
        { dsa_recv_cb := none, dsa_send := none, dsa_ctx := some dctx5 }
      else defaultEthCtx,
    get_iface_impl := fun _ _ _ => 1 }

/-- Switch context with 3 slave ports (interfaces 100, 101, 102). -/
def dctx3 : dsa_context :=
  { dapi := none, iface_master := some 99, iface_slave := [100, 101, 102],
    num_slave_ports := 3, lag_ids := [], lags := [] }

/-- Ethernet context of the master of the 3-slave-port switch. -/
def ec3 : ethernet_context :=
  { dsa_recv_cb := none, dsa_send := none, dsa_ctx := some dctx3 }

/-- Join ports `A` and `B` to LAG 7, then `A` leaves. -/
def lagSeqPartial (A B : Nat) : List LagOp :=
  [LagOp.join A 7, LagOp.join B 7, LagOp.leave A 7]

/-- Join ports `A` and `B` to LAG 7, then both leave. -/
def lagSeqFull (A B : Nat) : List LagOp :=
  lagSeqPartial A B ++ [LagOp.leave B 7]

/-- Claim C1: the claimed invariant — after any sequence of
join/leave/change calls, `lag_ids` holds no duplicate non-zero values —
fails on the code.  The sequence join(0,5), join(1,7), leave(0,5),
join(2,7) from the all-free state leaves `lag_ids = [7, 7]`: the join
scan claims the free slot left by the leave before reaching the existing
entry for id 7, duplicating it. -/
theorem C1_join_duplicates_lag_ids :
    (runOps drv0 (initCtx 3 2)
        [LagOp.join 0 5, LagOp.join 1 7, LagOp.leave 0 5,
         LagOp.join 2 7]).lag_ids = [7, 7] ∧
    noDupNonzeroB [7, 7] = false := by decide

/-- Claim C2: the claimed policy — LAG id 0 is reserved and no call with
`lag_id = 0` records a valid LAG assignment — fails on the code.  From
the all-free state, `dsa_switch_lag_join` with `lag_id = 0` hits the
free-slot branch of the scan, records `lags[0] = {id 0, valid}` and
returns the driver status (0, success). -/
theorem C2_join_zero_claims_id :
    (dsa_switch_lag_join drv0 (initCtx 3 2) 0 0).2 = 0 ∧
    (dsa_switch_lag_join drv0 (initCtx 3 2) 0 0).1.lags.getD 0 default
      = ⟨0, true⟩ := by decide

/-- Counterexample to claim C3 as literally stated: port 2 never joined
any LAG (its entry is invalid), yet `dsa_switch_lag_leave` with
`lag_id = 0` passes both guards (the first accepts an entry with id 0,
the second compares 0 with 0) and returns the driver status 0, not
`-ENOTSUP`. -/
theorem C3_counterexample :
    ((initCtx 3 2).lags.getD 2 default).is_valid = false ∧
    (dsa_switch_lag_leave drv0 (initCtx 3 2) 2 0).2 = 0 ∧
    (0 : Int) ≠ -ENOTSUP := by decide

/-- Claim C3 (amended): `dsa_switch_lag_leave` returns `-ENOTSUP` (with
the context untouched) whenever the port's entry is invalid with a
non-zero stored id, or whenever the stored id differs from `lag_id`; in
particular leaving with any non-zero `lag_id` on a port that never
joined fails with `-ENOTSUP`. -/
theorem C3_leave_not_supported (drv : DriverEnv) (ctx : dsa_context)
    (port lag_id : Nat) (_hp : port < ctx.lags.length)
    (h : (¬ (ctx.lags.getD port default).is_valid = true ∧
          (ctx.lags.getD port default).id ≠ 0) ∨
         (ctx.lags.getD port default).id ≠ lag_id) :
    dsa_switch_lag_leave drv ctx port lag_id = (ctx, -ENOTSUP) := by
  simp only [dsa_switch_lag_leave]
  split
  · rfl
  rename_i hc1
  split
  · rfl
  rename_i hc2
  exfalso
  simp only [not_not] at hc1
  simp only [ne_eq, not_not] at hc2
  rcases h with ⟨hnv, hnz⟩ | hne
  · rcases hc1 with hv | hz
    · exact hnv hv
    · exact hnz hz
  · exact hne hc2

/-- Witness for C3's amended theorem at the never-joined port 2 with
`lag_id = 99`. -/
theorem C3_witness :
    2 < (initCtx 3 2).lags.length ∧
    ((initCtx 3 2).lags.getD 2 default).id ≠ 99 ∧
    dsa_switch_lag_leave drv0 (initCtx 3 2) 2 99 = (initCtx 3 2, -ENOTSUP) :=
  ⟨by decide, by decide,
   C3_leave_not_supported drv0 (initCtx 3 2) 2 99 (by decide)
     (Or.inr (by decide))⟩

/-- Claim C4: for any two distinct ports `A`, `B` of a 3-port switch
with 2 LAG slots: after join(A,7), join(B,7), leave(A,7) the id 7 is
still present in `lag_ids` and port `B` is still a valid member; after
additionally leave(B,7) every `lag_ids` slot is free (0). -/
theorem C4_lag_reclaim : ∀ (A B : Fin 3), A ≠ B →
    (runOps drv0 (initCtx 3 2)
        (lagSeqPartial (A : Nat) (B : Nat))).lag_ids.contains 7 = true ∧
    (runOps drv0 (initCtx 3 2)
        (lagSeqPartial (A : Nat) (B : Nat))).lags.getD (B : Nat) default
      = ⟨7, true⟩ ∧
    (runOps drv0 (initCtx 3 2)
        (lagSeqFull (A : Nat) (B : Nat))).lag_ids = [0, 0] := by decide

/-- Witness for C4 at ports A = 0 and B = 1. -/
theorem C4_witness :
    (0 : Fin 3) ≠ (1 : Fin 3) ∧
    ((runOps drv0 (initCtx 3 2)
        (lagSeqPartial (((0 : Fin 3)) : Nat) (((1 : Fin 3)) : Nat))).lag_ids.contains 7
        = true ∧
     (runOps drv0 (initCtx 3 2)
        (lagSeqPartial (((0 : Fin 3)) : Nat) (((1 : Fin 3)) : Nat))).lags.getD
          (((1 : Fin 3)) : Nat) default = ⟨7, true⟩ ∧
     (runOps drv0 (initCtx 3 2)
        (lagSeqFull (((0 : Fin 3)) : Nat) (((1 : Fin 3)) : Nat))).lag_ids = [0, 0]) :=
  ⟨by decide, C4_lag_reclaim 0 1 (by decide)⟩

/-- Counterexample to claim C5 as literally stated: in `env5` the driver
resolves the packet to interface 1, a valid Ethernet DSA slave with no
registered receive filter, yet `dsa_net_recv` returns the master
(interface 0), not the candidate. -/
theorem C5_counterexample :
    env5.get_iface_impl 0 0 5 = 1 ∧
    dsa_check_iface env5 1 = 0 ∧
    (env5.l2data 1).dsa_recv_cb = none ∧
    dsa_net_recv env5 (some 0) (some 5) = some 0 ∧
    (some 0 : Option Nat) ≠ some 1 := by decide

/-- Claim C5 (amended): whenever the driver's resolve operation returns
a valid candidate interface that has no registered receive filter,
`dsa_net_recv` returns the MASTER interface; the candidate is returned
only when a registered filter accepts the packet. -/
theorem C5_no_filter_returns_master (env : Env) (i p isw gh : Nat)
    (dctx : dsa_context) (api : dsa_api)
    (h1 : (env.l2data i).dsa_ctx = some dctx)
    (h2 : dctx.dapi = some api)
    (h3 : api.dsa_get_iface = some gh)
    (h4 : env.get_iface_impl gh i p = isw)
    (h5 : dsa_check_iface env isw = 0)
    (h6 : (env.l2data isw).dsa_recv_cb = none) :
    dsa_net_recv env (some i) (some p) = some i := by
  simp [dsa_net_recv, h1, h2, h3, h4, h5, h6]

/-- Witness for C5's amended theorem in the concrete environment
`env5`. -/
theorem C5_witness :
    (env5.l2data 0).dsa_ctx = some dctx5 ∧
    dctx5.dapi = some api5 ∧
    api5.dsa_get_iface = some 0 ∧
    env5.get_iface_impl 0 0 5 = 1 ∧
    dsa_check_iface env5 1 = 0 ∧
    (env5.l2data 1).dsa_recv_cb = none ∧
    dsa_net_recv env5 (some 0) (some 5) = some 0 :=
  ⟨rfl, rfl, rfl, rfl, by decide, rfl,
   C5_no_filter_returns_master env5 0 5 1 0 dctx5 api5 rfl rfl rfl rfl
     (by decide) rfl⟩

/-- Counterexample to claim C6 as literally stated: with the packet
absent and the master interface present, `dsa_net_recv` returns NULL
(no interface), not the master interface unchanged. -/
theorem C6_counterexample :
    dsa_net_recv baseEnv (some 0) none = none ∧
    (none : Option Nat) ≠ some 0 := by decide

/-- Claim C6 (amended): whenever the packet argument is absent or the
master interface argument is absent, `dsa_net_recv` returns NULL (no
interface). -/
theorem C6_null_args (env : Env) (iface pkt : Option Nat)
    (h : pkt = none ∨ iface = none) :
    dsa_net_recv env iface pkt = none := by
  rcases h with h | h
  · subst h; cases iface <;> rfl
  · subst h; cases pkt <;> rfl

/-- Witness for C6's amended theorem with an absent packet. -/
theorem C6_witness :
    ((none : Option Nat) = none ∨ (some 0 : Option Nat) = none) ∧
    dsa_net_recv baseEnv (some 0) none = none :=
  ⟨Or.inl rfl, C6_null_args baseEnv (some 0) none (Or.inl rfl)⟩

/-- Claim C7: a transmit on a non-master (slave) port whose switch
context has no master interface reference returns `-ENODEV` and performs
no driver call at all (no tag insertion, no transmit — the event list is
empty, so state and packet are untouched). -/
theorem C7_no_master (env : Env) (dev pkt : Nat)
    (h1 : dsa_is_port_master env (env.lookup_by_dev dev) = false)
    (h2 : (env.dev_data dev).iface_master = none) :
    dsa_tx env dev pkt = (-ENODEV, []) := by
  simp [dsa_tx, h1, h2]

/-- Witness for C7 in the base environment (interface 0 is not a master
and the device's context has no master reference). -/
theorem C7_witness :
    dsa_is_port_master baseEnv (baseEnv.lookup_by_dev 0) = false ∧
    (baseEnv.dev_data 0).iface_master = none ∧
    dsa_tx baseEnv 0 5 = (-ENODEV, []) :=
  ⟨rfl, rfl, C7_no_master baseEnv 0 5 rfl rfl⟩

/-- Claim C8: `dsa_get_slave_port` returns NULL (not found), without any
panic, on every out-of-range index (negative or at least
`num_slave_ports`) and on a missing ethernet context; with 3 slave ports
configured it returns slave interface #1 for index 1 and not-found for
index 5. -/
theorem C8_get_slave_port (c : ethernet_context) (d : dsa_context) (n : Int)
    (hd : c.dsa_ctx = some d)
    (h : n < 0 ∨ d.num_slave_ports ≤ n) :
    dsa_get_slave_port (some c) n = none ∧
    dsa_get_slave_port none n = none ∧
    dsa_get_slave_port (some ec3) 1 = some 101 ∧
    dsa_get_slave_port (some ec3) 5 = none := by
  refine ⟨?_, rfl, by decide, by decide⟩
  simp only [dsa_get_slave_port, hd, Option.getD_some]
  rw [if_pos h]

/-- Witness for C8 at the 3-slave-port context with index 5. -/
theorem C8_witness :
    ec3.dsa_ctx = some dctx3 ∧
    ((5 : Int) < 0 ∨ dctx3.num_slave_ports ≤ (5 : Int)) ∧
    (dsa_get_slave_port (some ec3) 5 = none ∧
     dsa_get_slave_port none 5 = none ∧
     dsa_get_slave_port (some ec3) 1 = some 101 ∧
     dsa_get_slave_port (some ec3) 5 = none) :=
  ⟨rfl, Or.inr (by decide),
   C8_get_slave_port ec3 dctx3 5 rfl (Or.inr (by decide))⟩

/-- Counterexample to claim C9 as literally stated: registering transmit
function 1 and then transmit function 2 on the same context leaves
`dsa_send = some 2` — the second registration overwrites the first
instead of leaving it unchanged. -/
theorem C9_counterexample :
    ((dsa_register_master_tx defaultEthCtx 1).1).dsa_send = some 1 ∧
    ((dsa_register_master_tx
        (dsa_register_master_tx defaultEthCtx 1).1 2).1).dsa_send = some 2 ∧
    (some 2 : Option Nat) ≠ some 1 := by decide

/-- Claim C9 (amended): `dsa_register_master_tx` unconditionally stores
the given function and returns 0; after a second registration the saved
transmit function is the SECOND one — registration is not once-only. -/
theorem C9_register_overwrites (ctx : ethernet_context) (f g : Nat) :
    ((dsa_register_master_tx
        (dsa_register_master_tx ctx f).1 g).1).dsa_send = some g ∧
    (dsa_register_master_tx ctx f).2 = 0 ∧
    (dsa_register_master_tx (dsa_register_master_tx ctx f).1 g).2 = 0 :=
  ⟨rfl, rfl, rfl⟩

/-- Claim C10: `dsa_register_recv_callback` returns `-ENOENT` for a
non-Ethernet interface and `-ESRCH` for an Ethernet interface with
neither DSA capability, leaving the stored context unchanged in both
cases; on a valid interface with a NULL callback it returns 0 without
modifying the context. -/
theorem C10_register_recv (env : Env) (i : Nat) (cb : Option Nat) :
    (env.is_eth i = false →
      dsa_register_recv_callback env i cb = (env.l2data i, -ENOENT)) ∧
    (env.is_eth i = true → env.cap_master i = false →
      env.cap_slave i = false →
      dsa_register_recv_callback env i cb = (env.l2data i, -ESRCH)) ∧
    (dsa_check_iface env i = 0 →
      dsa_register_recv_callback env i none = (env.l2data i, 0)) := by
  refine ⟨fun h => ?_, fun h1 h2 h3 => ?_, fun h => ?_⟩
  · simp [dsa_register_recv_callback, dsa_check_iface, h, ENOENT]
  · simp [dsa_register_recv_callback, dsa_check_iface, h1, h2, h3, ESRCH]
  · simp [dsa_register_recv_callback, h]

/-- Witness for C10 on three concrete environments: a non-Ethernet
interface, an Ethernet interface without DSA capabilities, and a valid
slave interface with a NULL callback. -/
theorem C10_witness :
    dsa_register_recv_callback baseEnv 0 (some 7)
      = (baseEnv.l2data 0, -ENOENT) ∧
    dsa_register_recv_callback envS 0 (some 7) = (envS.l2data 0, -ESRCH) ∧
    dsa_register_recv_callback envV 0 none = (envV.l2data 0, 0) :=
  ⟨(C10_register_recv baseEnv 0 (some 7)).1 rfl,
   (C10_register_recv envS 0 (some 7)).2.1 rfl rfl rfl,
   (C10_register_recv envV 0 none).2.2 (by decide)⟩

end DSA
